import Mathlib

/-!
Verification of the Templay repository (Go, `cmd/web/main.go` and a second
near-duplicate entry point) against its natural-language specification.

Modelling conventions (shallow embedding of the Go source):

* Go `float64` arithmetic in `BPMEstimateSimple` is modelled by exact
  rational arithmetic (`ℚ`); all constants in the source (0.414, 2.2,
  0.25, 1.8, 1.25, 0.55) are exact decimals.  Division by zero in `ℚ`
  yields 0, mirroring the fact that the source leaves `height = 0`
  unspecified.
* The network functions `getAccessToken` and `callSpotifySearchParsed`
  are modelled as pure functions of the result of the single HTTP round
  trip they perform: an abstract response record carrying the numeric
  status code, the status text (Go `resp.Status`), the raw body text and
  the outcome of JSON-decoding the body.  Transport failure of
  `http.DefaultClient.Do` is the `Except.error` case of the argument.
* Console output is modelled as the list of printed lines (for
  `callSpotifySearchParsed`) and as a list of events (for `main`),
  in emission order.
-/

set_option autoImplicit false

namespace Templay

/-- Scale factor applied to the stride for speeds above 2.2 m/s, from the
body of `BPMEstimateSimple`:
`scale := 1.0 + 0.25*((speed-2.2)/1.8); if scale > 1.25 { scale = 1.25 }`. -/
def scaleFactorCode (speed : ℚ) : ℚ :=
  if 1 + 0.25 * ((speed - 2.2) / 1.8) > 1.25 then 1.25
  else 1 + 0.25 * ((speed - 2.2) / 1.8)

/-- Stride length before the 55%-of-height cap, from `BPMEstimateSimple`:
`L := 0.414 * height; if speed > 2.2 { ...; L = L * scale }`. -/
def strideBeforeClamp (height speed : ℚ) : ℚ :=
  if speed > 2.2 then 0.414 * height * scaleFactorCode speed
  else 0.414 * height

/-- Go `BPMEstimateSimple(height, speed float64) (float64, float64)`:
returns `(bpm, L)` where `L` is the stride capped at `0.55*height`
(`maxL := 0.55*height; if L > maxL { L = maxL }`) and
`bpm := (speed / L) * 60.0`. -/
def BPMEstimateSimple (height speed : ℚ) : ℚ × ℚ :=
  let L : ℚ :=
    if strideBeforeClamp height speed > 0.55 * height then 0.55 * height
    else strideBeforeClamp height speed
  ((speed / L) * 60, L)

/-- The spec's closed-form cadence algorithm, written from the words of
spec §4.3: `L = 0.414 × height`; if `speed > 2.2` multiply `L` by
`min(1.25, 1 + 0.25 × (speed − 2.2) / 1.8)`; clamp `L` to at most
`0.55 × height`; `bpm = (speed / L) × 60`.  Used only to compare with
`BPMEstimateSimple`. -/
def bpmEstimateSpecAlg (height speed : ℚ) : ℚ × ℚ :=
  let L0 : ℚ := 0.414 * height
  let L1 : ℚ :=
    if speed > 2.2 then L0 * min 1.25 (1 + 0.25 * ((speed - 2.2) / 1.8))
    else L0
  let L : ℚ := min L1 (0.55 * height)
  ((speed / L) * 60, L)

theorem ite_gt_eq_min (a b : ℚ) : (if b > a then a else b) = min a b := by
  split_ifs with h
  · exact (min_eq_left h.le).symm
  · exact (min_eq_right (not_lt.mp h)).symm

/-- `BPMEstimateSimple` with the 55%-of-height clamp removed: the stride is
`strideBeforeClamp` itself.  Used only for the clamp-elimination
equivalence claim. -/
def BPMEstimateNoClamp (height speed : ℚ) : ℚ × ℚ :=
  ((speed / strideBeforeClamp height speed) * 60, strideBeforeClamp height speed)

theorem scaleFactorCode_le_cap (speed : ℚ) : scaleFactorCode speed ≤ 1.25 := by
  unfold scaleFactorCode
  split_ifs with h
  · exact le_refl _
  · exact not_lt.mp h

/-- Claim C1: for every `height` and `speed`, `BPMEstimateSimple` returns
exactly the pair `(bpm, L)` computed by the spec's closed-form algorithm:
base stride `0.414 × height`, scale `min(1.25, 1 + 0.25 × (speed − 2.2)/1.8)`
applied when `speed > 2.2`, clamp to at most `0.55 × height`, and
`bpm = (speed / L) × 60`. -/
theorem BPMEstimateSimple_eq_specAlg (height speed : ℚ) :
    BPMEstimateSimple height speed = bpmEstimateSpecAlg height speed := by
  unfold BPMEstimateSimple bpmEstimateSpecAlg strideBeforeClamp scaleFactorCode
  rw [ite_gt_eq_min (0.55 * height)]
  rw [min_comm]
  rw [ite_gt_eq_min (1.25 : ℚ)]

/-- Claim C2, counterexample: at the reference input
`(height, speed) = (1.75, 2.68224)` the stride returned by
`BPMEstimateSimple` is not within 0.25 of the spec's pinned 0.475 m, and
the cadence is not within 100 of the pinned 339 spm, so the pinned
reference values are wrong under any reasonable reading of
"approximately". -/
theorem BPMEstimateSimple_reference_off :
    ¬ (|(BPMEstimateSimple 1.75 2.68224).2 - 0.475| ≤ 1/4) ∧
    ¬ (|(BPMEstimateSimple 1.75 2.68224).1 - 339| ≤ 100) := by
  have h : BPMEstimateSimple 1.75 2.68224 = (804672000/3865127, 3865127/5000000) := by
    unfold BPMEstimateSimple strideBeforeClamp scaleFactorCode
    norm_num
  rw [h]
  constructor
  · rw [abs_le]
    norm_num
  · rw [abs_le]
    norm_num

/-- Claim C2, amended: in exact arithmetic `BPMEstimateSimple(1.75, 2.68224)`
applies the scale factor `24007/22500 ≈ 1.0670` and returns the stride
`3865127/5000000 = 0.7730254` m and the cadence
`804672000/3865127 ≈ 208.19` spm (not the spec's ≈0.475 m / ≈1.058 /
≈339 spm, which do not follow from the spec's own formula). -/
theorem BPMEstimateSimple_reference_exact :
    BPMEstimateSimple 1.75 2.68224 = (804672000/3865127, 3865127/5000000) ∧
    scaleFactorCode 2.68224 = 24007/22500 := by
  constructor
  · unfold BPMEstimateSimple strideBeforeClamp scaleFactorCode
    norm_num
  · unfold scaleFactorCode
    norm_num

/-- Claim C3: for `height > 0` and `speed ≤ 2.2` the stride returned by
`BPMEstimateSimple` is exactly `0.414 × height`; the `0.55 × height`
clamp condition is false in this branch because `0.414 < 0.55`. -/
theorem BPMEstimateSimple_stride_low_speed (height speed : ℚ)
    (hh : 0 < height) (hs : speed ≤ 2.2) :
    ¬ (strideBeforeClamp height speed > 0.55 * height) ∧
    (BPMEstimateSimple height speed).2 = 0.414 * height := by
  have hstride : strideBeforeClamp height speed = 0.414 * height := by
    unfold strideBeforeClamp
    rw [if_neg (not_lt.mpr hs)]
  have hnc : ¬ (strideBeforeClamp height speed > 0.55 * height) := by
    rw [hstride]
    intro hgt
    nlinarith
  refine ⟨hnc, ?_⟩
  simp only [BPMEstimateSimple]
  rw [if_neg hnc, hstride]

/-- Claim C3, witness at `height = 2`, `speed = 1`. -/
theorem BPMEstimateSimple_stride_low_speed_witness :
    ¬ (strideBeforeClamp 2 1 > 0.55 * 2) ∧
    (BPMEstimateSimple 2 1).2 = 0.414 * 2 :=
  BPMEstimateSimple_stride_low_speed 2 1 (by norm_num) (by norm_num)

/-- Claim C4: for `2.2 < s1 ≤ s2` the stride scale factor of
`BPMEstimateSimple` is monotonically non-decreasing and never exceeds
1.25: `scale(s1) ≤ scale(s2) ≤ 1.25`. -/
theorem scaleFactorCode_mono_capped (s1 s2 : ℚ)
    (_h1 : 2.2 < s1) (h12 : s1 ≤ s2) :
    scaleFactorCode s1 ≤ scaleFactorCode s2 ∧ scaleFactorCode s2 ≤ 1.25 := by
  refine ⟨?_, scaleFactorCode_le_cap s2⟩
  have key : 1 + 0.25 * ((s1 - 2.2) / 1.8) ≤ 1 + 0.25 * ((s2 - 2.2) / 1.8) := by
    have hd : (s1 - 2.2) / 1.8 ≤ (s2 - 2.2) / 1.8 := by
      gcongr
    linarith
  unfold scaleFactorCode
  split_ifs with hA hB
  · exact le_refl _
  · linarith
  · linarith
  · exact key

/-- Claim C4, witness at `s1 = 2.5`, `s2 = 3`. -/
theorem scaleFactorCode_mono_capped_witness :
    scaleFactorCode 2.5 ≤ scaleFactorCode 3 ∧ scaleFactorCode 3 ≤ 1.25 :=
  scaleFactorCode_mono_capped 2.5 3 (by norm_num) (by norm_num)

/-- Claim C10: for `height ≥ 0` and any `speed`, the pre-clamp stride is at
most `0.5175 × height = 0.414 × 1.25 × height`, so the clamp condition
`L > 0.55 × height` never holds and `BPMEstimateSimple` coincides with
the clamp-free variant. -/
theorem BPMEstimateSimple_clamp_free (height speed : ℚ) (hh : 0 ≤ height) :
    strideBeforeClamp height speed ≤ 0.5175 * height ∧
    ¬ (strideBeforeClamp height speed > 0.55 * height) ∧
    BPMEstimateSimple height speed = BPMEstimateNoClamp height speed := by
  have hb : strideBeforeClamp height speed ≤ 0.5175 * height := by
    unfold strideBeforeClamp
    split_ifs with h
    · have hcap := scaleFactorCode_le_cap speed
      have h0 : (0:ℚ) ≤ 0.414 * height := by linarith
      calc 0.414 * height * scaleFactorCode speed
          ≤ 0.414 * height * 1.25 := mul_le_mul_of_nonneg_left hcap h0
        _ = 0.5175 * height := by ring
    · linarith
  have hnc : ¬ (strideBeforeClamp height speed > 0.55 * height) := by
    intro hgt
    nlinarith
  refine ⟨hb, hnc, ?_⟩
  simp only [BPMEstimateSimple, BPMEstimateNoClamp]
  rw [if_neg hnc]

/-- Claim C10, witness at `height = 2`, `speed = 3`. -/
theorem BPMEstimateSimple_clamp_free_witness :
    strideBeforeClamp 2 3 ≤ 0.5175 * 2 ∧
    ¬ (strideBeforeClamp 2 3 > 0.55 * 2) ∧
    BPMEstimateSimple 2 3 = BPMEstimateNoClamp 2 3 :=
  BPMEstimateSimple_clamp_free 2 3 (by norm_num)

/-- JSON shape `{"name": ...}` of one artist in the search response
(local struct `artist` in `callSpotifySearchParsed`). -/
structure Artist where
  name : String
  deriving DecidableEq

/-- JSON shape `{"name": ..., "artists": [...]}` of one track
(local struct `track`). -/
structure Track where
  name : String
  artists : List Artist
  deriving DecidableEq

/-- JSON shape `{"items": [...]}` (local struct `tracksPage`). -/
structure TracksPage where
  items : List Track
  deriving DecidableEq

/-- JSON shape `{"tracks": {...}}` (local struct `searchResp`). -/
structure SearchResp where
  tracks : TracksPage
  deriving DecidableEq

/-- Abstract HTTP response of the search GET, as `callSpotifySearchParsed`
observes it: numeric status code, Go `resp.Status` text, body text, and
the result of `json.Decoder.Decode` on the body. -/
structure SearchHttpResponse where
  statusCode : Nat
  status : String
  bodyText : String
  decoded : Except String SearchResp

/-- Go `%2d`: decimal rendering right-aligned in a field of width 2
(ranks 1–9 get one leading space). -/
def pad2 (n : Nat) : String :=
  if (toString n).length < 2 then " " ++ toString n else toString n

/-- Artist displayed for a track:
`artist := "Unknown"; if len(t.Artists) > 0 { artist = t.Artists[0].Name }`. -/
def displayedArtist (t : Track) : String :=
  match t.artists with
  | [] => "Unknown"
  | a :: _ => a.name

/-- One output line `fmt.Printf("%2d) %s — %s\n", i+1, artist, t.Name)`. -/
def renderLine (rank : Nat) (t : Track) : String :=
  pad2 rank ++ ") " ++ displayedArtist t ++ " — " ++ t.name

/-- Lines for `for i, t := range items` starting at the given rank. -/
def renderLinesFrom (rank : Nat) : List Track → List String
  | [] => []
  | t :: ts => renderLine rank t :: renderLinesFrom (rank + 1) ts

/-- Go `callSpotifySearchParsed` after the GET round trip: returns the
list of printed lines and the returned `error` (`none` = `nil`).  The
argument is the outcome of `http.DefaultClient.Do`; `Except.error`
models transport failure (returned unchanged as the error). -/
def callSpotifySearchParsed (doResult : Except String SearchHttpResponse) :
    List String × Option String :=
  match doResult with
  | .error e => ([], some e)
  | .ok resp =>
    if resp.statusCode / 100 ≠ 2 then
      ([], some ("search failed: " ++ resp.status ++ ": " ++ resp.bodyText))
    else
      match resp.decoded with
      | .error e => ([], some e)
      | .ok out =>
        if out.tracks.items.length = 0 then (["No tracks found."], none)
        else (renderLinesFrom 1 out.tracks.items, none)

/-- JSON shape `{access_token, expires_in, token_type}` of the token
endpoint response. -/
structure TokenPayload where
  accessToken : String
  expiresIn : Int
  tokenType : String
  deriving DecidableEq

/-- Abstract HTTP response of the token POST, as `getAccessToken`
observes it. -/
structure TokenHttpResponse where
  statusCode : Nat
  status : String
  bodyText : String
  decoded : Except String TokenPayload

/-- Go `getAccessToken` after the POST round trip: returns
`(token, expiresIn, error)`; `none` in the third slot is `err == nil`.
The argument is the outcome of `http.DefaultClient.Do`. -/
def getAccessToken (doResult : Except String TokenHttpResponse) :
    String × Int × Option String :=
  match doResult with
  | .error e => ("", 0, some e)
  | .ok resp =>
    if resp.statusCode ≠ 200 then
      ("", 0, some ("status " ++ resp.status ++ ": " ++ resp.bodyText))
    else
      match resp.decoded with
      | .error e => ("", 0, some e)
      | .ok p => (p.accessToken, p.expiresIn, none)

/-- `sub` occurs as a contiguous substring of `s`. -/
def containsSub (s sub : String) : Prop :=
  ∃ a b : String, s = a ++ sub ++ b

/-- Observable events of one run of `main`: a printed line, the token
POST being issued, the search GET being issued, and the final cadence
printf (carrying the two computed numbers). -/
inductive Event where
  | println (s : String)
  | tokenPost
  | searchGet
  | printCadence (bpm stepLen : ℚ)
  deriving DecidableEq

/-- The two network round-trip outcomes available to one run of `main`. -/
structure Network where
  tokenDo : Except String TokenHttpResponse
  searchDo : Except String SearchHttpResponse

/-- Event trace of Go `main` (the `cmd/web` variant, which ends with the
cadence estimate), as a function of the two environment variable values
(`""` models an absent variable, as `os.Getenv` returns) and the network
outcomes. -/
def mainTrace (client_id client_secret : String) (net : Network) : List Event :=
  if client_id = "" ∨ client_secret = "" then
    [.println "Missing SPOTIFY_CLIENT_ID or SPOTIFY_CLIENT_SECRET in env"]
  else
    Event.tokenPost ::
    match getAccessToken net.tokenDo with
    | (_, _, some e) => [.println ("Token fetch failed: " ++ e)]
    | (token, expiresIn, none) =>
      Event.println ("token length: " ++ toString token.length) ::
      Event.println ("expires_in (sec): " ++ toString expiresIn) ::
      Event.searchGet ::
      ((callSpotifySearchParsed net.searchDo).1.map Event.println ++
        (match (callSpotifySearchParsed net.searchDo).2 with
         | some e => [Event.println ("API call failed: " ++ e)]
         | none => []) ++
        [Event.printCadence (BPMEstimateSimple 1.75 2.68224).1
          (BPMEstimateSimple 1.75 2.68224).2])

theorem renderLinesFrom_length (l : List Track) :
    ∀ r : Nat, (renderLinesFrom r l).length = l.length := by
  induction l with
  | nil => intro r; rfl
  | cons hd tl ih =>
    intro r
    simp [renderLinesFrom, ih (r + 1)]

theorem renderLinesFrom_get (l : List Track) :
    ∀ (r i : Nat) (t : Track), l.get? i = some t →
      (renderLinesFrom r l).get? i = some (renderLine (r + i) t) := by
  induction l with
  | nil => intro r i t h; simp [List.get?] at h
  | cons hd tl ih =>
    intro r i t h
    cases i with
    | zero =>
      simp only [List.get?, Option.some.injEq] at h
      subst h
      rfl
    | succ n =>
      simp only [List.get?] at h
      have harr : r + (n + 1) = (r + 1) + n := by omega
      rw [renderLinesFrom, List.get?, harr]
      exact ih (r + 1) n t h

theorem get?_lt_length {α : Type} (l : List α) (i : Nat) (x : α)
    (h : l.get? i = some x) : i < l.length := by
  by_contra hge
  push_neg at hge
  rw [List.get?_eq_none.mpr hge] at h
  exact Option.noConfusion h

/-- Claim C5: for every track of the decoded search response whose artist
list is empty, the artist displayed in that track's output line is
exactly the literal `"Unknown"`. -/
theorem callSpotifySearch_unknown_artist (resp : SearchHttpResponse)
    (out : SearchResp) (i : Nat) (t : Track)
    (h2 : resp.statusCode / 100 = 2)
    (hdec : resp.decoded = Except.ok out)
    (ht : out.tracks.items.get? i = some t)
    (ha : t.artists = []) :
    displayedArtist t = "Unknown" ∧
    (callSpotifySearchParsed (Except.ok resp)).1.get? i =
      some (pad2 (i + 1) ++ ") " ++ "Unknown" ++ " — " ++ t.name) := by
  have hda : displayedArtist t = "Unknown" := by
    simp [displayedArtist, ha]
  have hi : i < out.tracks.items.length := get?_lt_length _ i t ht
  have hlen : out.tracks.items.length ≠ 0 := by omega
  refine ⟨hda, ?_⟩
  simp only [callSpotifySearchParsed, h2, hdec, ne_eq, not_true_eq_false,
    if_false, hlen, if_neg]
  rw [renderLinesFrom_get out.tracks.items 1 i t ht]
  rw [renderLine, hda, Nat.add_comm 1 i]

/-- Claim C5, witness: the second track of a concrete two-track response
has an empty artist list and is displayed as `Unknown`. -/
theorem callSpotifySearch_unknown_artist_witness :
    displayedArtist ⟨"Instrumental", []⟩ = "Unknown" ∧
    (callSpotifySearchParsed (Except.ok
      ⟨200, "200 OK", "",
        Except.ok ⟨⟨[⟨"Around the World", [⟨"Daft Punk"⟩]⟩,
          ⟨"Instrumental", []⟩]⟩⟩⟩)).1.get? 1 =
      some (pad2 (1 + 1) ++ ") " ++ "Unknown" ++ " — " ++ "Instrumental") :=
  callSpotifySearch_unknown_artist
    ⟨200, "200 OK", "",
      Except.ok ⟨⟨[⟨"Around the World", [⟨"Daft Punk"⟩]⟩,
        ⟨"Instrumental", []⟩]⟩⟩⟩
    ⟨⟨[⟨"Around the World", [⟨"Daft Punk"⟩]⟩, ⟨"Instrumental", []⟩]⟩⟩
    1 ⟨"Instrumental", []⟩ (by decide) rfl rfl rfl

/-- Claim C6: a 2xx response decoding to an empty `tracks.items` makes
`callSpotifySearchParsed` print exactly `"No tracks found."` and return
success (`nil` error). -/
theorem callSpotifySearch_no_tracks (resp : SearchHttpResponse)
    (out : SearchResp)
    (h2 : resp.statusCode / 100 = 2)
    (hdec : resp.decoded = Except.ok out)
    (hempty : out.tracks.items = []) :
    callSpotifySearchParsed (Except.ok resp) = (["No tracks found."], none) := by
  simp [callSpotifySearchParsed, h2, hdec, hempty]

/-- Claim C6, witness at a concrete 200 response with no items. -/
theorem callSpotifySearch_no_tracks_witness :
    callSpotifySearchParsed (Except.ok ⟨200, "200 OK", "", Except.ok ⟨⟨[]⟩⟩⟩) =
      (["No tracks found."], none) :=
  callSpotifySearch_no_tracks ⟨200, "200 OK", "", Except.ok ⟨⟨[]⟩⟩⟩ ⟨⟨[]⟩⟩
    (by decide) rfl rfl

/-- Claim C7, counterexample: the first emitted line for a one-track
response is `" 1) Daft Punk — One More Time"` — the Go `%2d` verb pads
the rank to width 2, so the line is not of the exact claimed form
`"<rank>) <artist> — <track>"` (which for rank 1 would be
`"1) Daft Punk — One More Time"`, without the leading space). -/
theorem callSpotifySearch_line_not_unpadded :
    (callSpotifySearchParsed (Except.ok
      ⟨200, "200 OK", "",
        Except.ok ⟨⟨[⟨"One More Time", [⟨"Daft Punk"⟩]⟩]⟩⟩⟩)).1 =
      [" 1) Daft Punk — One More Time"] ∧
    " 1) Daft Punk — One More Time" ≠ "1) Daft Punk — One More Time" := by
  constructor
  · rfl
  · decide

/-- Claim C7, amended: for a non-empty decoded track list the function
returns success and emits one line per track, in upstream order, of the
exact form `"<rank right-aligned in width 2>) <artist> — <track>"` with
1-indexed ranks (so ranks 1–9 carry one leading space, from `%2d`). -/
theorem callSpotifySearch_ranked_lines (resp : SearchHttpResponse)
    (out : SearchResp)
    (h2 : resp.statusCode / 100 = 2)
    (hdec : resp.decoded = Except.ok out)
    (hne : out.tracks.items.length ≠ 0) :
    (callSpotifySearchParsed (Except.ok resp)).2 = none ∧
    (callSpotifySearchParsed (Except.ok resp)).1.length =
      out.tracks.items.length ∧
    ∀ (i : Nat) (t : Track), out.tracks.items.get? i = some t →
      (callSpotifySearchParsed (Except.ok resp)).1.get? i =
        some (pad2 (i + 1) ++ ") " ++ displayedArtist t ++ " — " ++ t.name) := by
  have hcall : callSpotifySearchParsed (Except.ok resp) =
      (renderLinesFrom 1 out.tracks.items, none) := by
    simp [callSpotifySearchParsed, h2, hdec, hne]
  refine ⟨by rw [hcall], ?_, ?_⟩
  · rw [hcall]
    exact renderLinesFrom_length out.tracks.items 1
  · intro i t ht
    rw [hcall]
    rw [renderLinesFrom_get out.tracks.items 1 i t ht]
    rw [renderLine, Nat.add_comm 1 i]

/-- Claim C7 (amended), witness: both lines of a concrete two-track
response, in upstream order with 1-indexed, width-2 ranks. -/
theorem callSpotifySearch_ranked_lines_witness :
    (callSpotifySearchParsed (Except.ok
      ⟨200, "200 OK", "",
        Except.ok ⟨⟨[⟨"Around the World", [⟨"Daft Punk"⟩]⟩,
          ⟨"Instrumental", []⟩]⟩⟩⟩)).1.get? 0 =
      some (pad2 (0 + 1) ++ ") " ++
        displayedArtist ⟨"Around the World", [⟨"Daft Punk"⟩]⟩ ++ " — " ++
        "Around the World") :=
  (callSpotifySearch_ranked_lines
    ⟨200, "200 OK", "",
      Except.ok ⟨⟨[⟨"Around the World", [⟨"Daft Punk"⟩]⟩,
        ⟨"Instrumental", []⟩]⟩⟩⟩
    ⟨⟨[⟨"Around the World", [⟨"Daft Punk"⟩]⟩, ⟨"Instrumental", []⟩]⟩⟩
    (by decide) rfl (by decide)).2.2
    0 ⟨"Around the World", [⟨"Daft Punk"⟩]⟩ rfl

/-- Claim C8: a non-200 token-endpoint response makes `getAccessToken`
return the empty token, zero expiry, and an error message containing
both the HTTP status text and the response body text. -/
theorem getAccessToken_non200 (resp : TokenHttpResponse)
    (h : resp.statusCode ≠ 200) :
    getAccessToken (Except.ok resp) =
      ("", 0, some ("status " ++ resp.status ++ ": " ++ resp.bodyText)) ∧
    containsSub ("status " ++ resp.status ++ ": " ++ resp.bodyText)
      resp.status ∧
    containsSub ("status " ++ resp.status ++ ": " ++ resp.bodyText)
      resp.bodyText := by
  refine ⟨?_, ⟨"status ", ": " ++ resp.bodyText, ?_⟩,
    ⟨"status " ++ resp.status ++ ": ", "", ?_⟩⟩
  · simp [getAccessToken, h]
  · simp [String.append_assoc]
  · simp [String.append_assoc, String.append_empty]

/-- Claim C8, witness at a concrete 404 response. -/
theorem getAccessToken_non200_witness :
    getAccessToken (Except.ok
      ⟨404, "404 Not Found", "no such endpoint", Except.error "bad json"⟩) =
      ("", 0, some ("status " ++ "404 Not Found" ++ ": " ++ "no such endpoint")) ∧
    containsSub ("status " ++ "404 Not Found" ++ ": " ++ "no such endpoint")
      "404 Not Found" ∧
    containsSub ("status " ++ "404 Not Found" ++ ": " ++ "no such endpoint")
      "no such endpoint" :=
  getAccessToken_non200
    ⟨404, "404 Not Found", "no such endpoint", Except.error "bad json"⟩
    (by decide)

/-- Claim C9: when either environment variable is absent (empty string),
`main` prints only the missing-variables message and issues neither the
token POST nor the search GET. -/
theorem mainTrace_missing_env (cid csec : String) (net : Network)
    (h : cid = "" ∨ csec = "") :
    mainTrace cid csec net =
      [Event.println "Missing SPOTIFY_CLIENT_ID or SPOTIFY_CLIENT_SECRET in env"] ∧
    Event.tokenPost ∉ mainTrace cid csec net ∧
    Event.searchGet ∉ mainTrace cid csec net := by
  have htr : mainTrace cid csec net =
      [Event.println "Missing SPOTIFY_CLIENT_ID or SPOTIFY_CLIENT_SECRET in env"] := by
    unfold mainTrace
    rw [if_pos h]
  refine ⟨htr, ?_, ?_⟩ <;> rw [htr] <;> simp

/-- Claim C9, witness: empty client id, concrete secret, network down. -/
theorem mainTrace_missing_env_witness :
    mainTrace "" "secret" ⟨Except.error "down", Except.error "down"⟩ =
      [Event.println "Missing SPOTIFY_CLIENT_ID or SPOTIFY_CLIENT_SECRET in env"] ∧
    Event.tokenPost ∉ mainTrace "" "secret" ⟨Except.error "down", Except.error "down"⟩ ∧
    Event.searchGet ∉ mainTrace "" "secret" ⟨Except.error "down", Except.error "down"⟩ :=
  mainTrace_missing_env "" "secret" ⟨Except.error "down", Except.error "down"⟩
    (Or.inl rfl)

end Templay
